import Mathlib

/-
Verification development for the reddit_agent repository.

Shallow embedding conventions:
- Python floats are modelled as exact rationals (ℚ); epoch timestamps as ℤ/ℚ.
- Python strings are Lean `String`s; where index arithmetic matters
  (the JSON extraction layer), strings are modelled as `List Char`.
- SQLite tables are lists of typed rows; the PRIMARY KEY constraint on
  submissions.submission_id is modelled by `store_submission` returning
  `Except` (an IntegrityError leaves the table unchanged).
- External collaborators (the Reddit API, the scoring oracle, the clock)
  are inputs to the embedded functions: fetched submissions, per-call
  accessibility results and fault injections are explicit arguments.
- Exception-driven control flow becomes explicit result values:
  a function that the source allows to raise returns `Except`/`Option`,
  and handlers become `match`es on those values.
-/

namespace RedditAgent

/-! ## JSON layer (src/reddit_agent/llm.py)

`jsonLoads` models Python's `json.loads` restricted to the flat JSON
objects the scoring-oracle responses use (string keys; string, integer,
boolean and null values; no escape sequences, no nesting).  Inputs that
`jsonLoads` rejects model inputs on which `json.loads` raises
`JSONDecodeError`. -/

/-- A flat JSON value, as produced by the modelled `json.loads`. -/
inductive JVal where
  | jstr (s : List Char)
  | jnum (n : ℤ)
  | jbool (b : Bool)
  | jnull
  deriving DecidableEq

/-- A parsed flat JSON object: key/value pairs in textual order. -/
abbrev JObj := List (List Char × JVal)

/-- Drop leading JSON whitespace. -/
def skipWs : List Char → List Char
  | [] => []
  | c :: rest =>
    if c = ' ' ∨ c = '\n' ∨ c = '\t' ∨ c = '\r' then skipWs rest else c :: rest

/-- Parse the body of a string literal after the opening quote: the
content up to the next quote, and the remaining input. -/
def parseStringBody : List Char → Option (List Char × List Char)
  | [] => none
  | c :: rest =>
    if c = '"' then some ([], rest)
    else (parseStringBody rest).map (fun p => (c :: p.1, p.2))

/-- Whether a character is a decimal digit. -/
def isDigitCh (c : Char) : Bool := decide ('0' ≤ c ∧ c ≤ '9')

/-- Split off the longest leading run of digits. -/
def takeDigits : List Char → (List Char × List Char)
  | [] => ([], [])
  | c :: rest =>
    if isDigitCh c then
      let p := takeDigits rest
      (c :: p.1, p.2)
    else ([], c :: rest)

/-- Numeric value of a digit run. -/
def digitsToNat (l : List Char) : ℕ :=
  l.foldl (fun acc c => acc * 10 + (c.toNat - '0'.toNat)) 0

/-- Parse one JSON value (string, integer, true/false/null). -/
def parseValue (s : List Char) : Option (JVal × List Char) :=
  match s with
  | [] => none
  | c :: rest =>
    if c = '"' then
      (parseStringBody rest).map (fun p => (JVal.jstr p.1, p.2))
    else if c = 't' then
      match rest with
      | 'r' :: 'u' :: 'e' :: r2 => some (JVal.jbool true, r2)
      | _ => none
    else if c = 'f' then
      match rest with
      | 'a' :: 'l' :: 's' :: 'e' :: r2 => some (JVal.jbool false, r2)
      | _ => none
    else if c = 'n' then
      match rest with
      | 'u' :: 'l' :: 'l' :: r2 => some (JVal.jnull, r2)
      | _ => none
    else if c = '-' then
      let p := takeDigits rest
      if p.1 = [] then none else some (JVal.jnum (-(digitsToNat p.1 : ℤ)), p.2)
    else if isDigitCh c then
      let p := takeDigits rest
      some (JVal.jnum ((digitsToNat (c :: p.1) : ℕ) : ℤ), p.2)
    else none

/-- Parse the members of an object after the opening brace, fuelled by
the input length (each step consumes at least one character). -/
def parseMembers : ℕ → List Char → Option (JObj × List Char)
  | 0, _ => none
  | fuel + 1, s =>
    match skipWs s with
    | '"' :: rest =>
      match parseStringBody rest with
      | none => none
      | some (key, r1) =>
        match skipWs r1 with
        | ':' :: r2 =>
          match parseValue (skipWs r2) with
          | none => none
          | some (v, r3) =>
            match skipWs r3 with
            | ',' :: r4 =>
              match parseMembers fuel r4 with
              | none => none
              | some (obj, r5) => some ((key, v) :: obj, r5)
            | '}' :: r4 => some ([(key, v)], r4)
            | _ => none
        | _ => none
    | _ => none

/-- Model of `json.loads` on oracle responses: a whole input must be a
single flat object, optionally surrounded by whitespace; anything else
is a parse failure (`none`, standing for a raised `JSONDecodeError`). -/
def jsonLoads (s : List Char) : Option JObj :=
  match skipWs s with
  | '{' :: rest =>
    match skipWs rest with
    | '}' :: r2 => if skipWs r2 = [] then some [] else none
    | _ =>
      match parseMembers (s.length + 1) rest with
      | none => none
      | some (obj, r2) => if skipWs r2 = [] then some obj else none
  | _ => none

/-- Python `str.find`: index of the first occurrence of a character
(`none` models the -1 result). -/
def strFind (c : Char) : List Char → Option ℕ
  | [] => none
  | a :: rest => if a = c then some 0 else (strFind c rest).map (· + 1)

/-- Python `str.rfind`: index of the last occurrence of a character. -/
def strRfind (c : Char) (s : List Char) : Option ℕ :=
  (strFind c s.reverse).map (fun i => s.length - 1 - i)

/-- `safe_parse_json` from src/reddit_agent/llm.py: try `json.loads`
as-is; on failure slice from the first `«{»` to the last `«}»` and retry;
on any remaining failure return the empty object.  Both handlers of the
source are the `none` branches here, so the function is total: no input
makes it raise. -/
def safe_parse_json (s : List Char) : JObj :=
  match jsonLoads s with
  | some o => o
  | none =>
    match strFind '{' s, strRfind '}' s with
    | some i, some j =>
      match jsonLoads ((s.drop i).take (j + 1 - i)) with
      | some o => o
      | none => []
    | _, _ => []

/-! ## Association lists

Python dicts (with their insertion-order semantics) are modelled as
association lists with String keys: `setAssoc` updates an existing key
in place and appends a new one at the end, exactly as dict assignment
orders keys. -/

/-- Dict lookup: first binding of the key, if any. -/
def lookupAssoc {β : Type} : List (String × β) → String → Option β
  | [], _ => none
  | p :: rest, k => if p.1 = k then some p.2 else lookupAssoc rest k

/-- Dict assignment: overwrite in place, or append a fresh key. -/
def setAssoc {β : Type} : List (String × β) → String → β → List (String × β)
  | [], k, v => [(k, v)]
  | p :: rest, k, v => if p.1 = k then (k, v) :: rest else p :: setAssoc rest k v

/-! ## Data model (src/reddit_agent/models.py) and external input -/

/-- `UtilityMetrics` from models.py: the four metric components. -/
structure UtilityMetrics where
  engagement_rate : ℚ
  sentiment_score : ℚ
  relevance_score : ℚ
  novelty_score : ℚ
  deriving DecidableEq

/-- A fetched Reddit submission: the praw fields the source reads.
`comments = none` models a comment listing that is unavailable or whose
fetch raises (the source then counts 0 comments). -/
structure Submission where
  id : String
  title : String
  selftext : String
  author : String
  subreddit : String
  created_utc : ℤ
  score : ℤ
  comments : Option ℕ
  stickied : Bool
  deriving DecidableEq

/-! ## Content analysis (src/reddit_agent/analysis.py) -/

/-- A value of the analysis dict returned by `analyze_submission`. -/
inductive AVal where
  | num (q : ℚ)
  | strList (l : List String)
  deriving DecidableEq

/-- The analysis mapping (a Python dict). -/
abbrev Analysis := List (String × AVal)

/-- `ContentAnalyzer.analyze_submission`: the placeholder analysis with
exactly the keys sentiment and topics. -/
def analyze_submission (_sub : Submission) : Analysis :=
  [("sentiment", AVal.num (1/2)), ("topics", AVal.strList ["general"])]

/-- `ContentAnalyzer.calculate_engagement_rate`.  `now` is
`datetime.utcnow().timestamp()`.  The source's outer try/except cannot
fire in this pure model (no sub-step raises), so the 0.0 fallback branch
has no counterpart. -/
def calculate_engagement_rate (now : ℚ) (sub : Submission) : ℚ :=
  let comment_count : ℕ := sub.comments.getD 0
  let total_engagement : ℚ := (sub.score : ℚ) + (comment_count : ℚ)
  let time_factor : ℚ := max 1 ((now - (sub.created_utc : ℚ)) / 3600)
  min 1 (total_engagement / (100 * time_factor))

/-- `ContentAnalyzer.calculate_relevance`: placeholder 0.5. -/
def calculate_relevance (_sub : Submission) (_analysis : Analysis) : ℚ := 1/2

/-- `ContentAnalyzer.calculate_novelty`: placeholder 0.5. -/
def calculate_novelty (_sub : Submission) (_analysis : Analysis) : ℚ := 1/2

/-- `analysis[«sentiment»]`; the default is unreachable in the pipeline,
where `analyze_submission` always supplies the key. -/
def analysisSentiment (a : Analysis) : ℚ :=
  match lookupAssoc a "sentiment" with
  | some (AVal.num q) => q
  | _ => 0

/-- `analysis[«topics»]`; default likewise unreachable. -/
def analysisTopics (a : Analysis) : List String :=
  match lookupAssoc a "topics" with
  | some (AVal.strList l) => l
  | _ => []

/-- `analysis.get(«engagement_rate», 0.0)` as used by
`Database.store_submission`. -/
def analysisEngagement (a : Analysis) : ℚ :=
  match lookupAssoc a "engagement_rate" with
  | some (AVal.num q) => q
  | _ => 0

/-! ## Persistence layer (src/reddit_agent/database.py)

The three tables are lists of typed rows.  `submission_id` is the
PRIMARY KEY of the submissions table: an INSERT that violates it raises
sqlite3.IntegrityError and leaves the table unchanged, modelled by
`Except.error` with no new state. -/

/-- One row of the submissions table. -/
structure SubmissionRow where
  submission_id : String
  title : String
  content : String
  author : String
  subreddit : String
  created_utc : ℤ
  processed_at : ℚ
  sentiment : ℚ
  topics : List String
  engagement_score : ℚ
  utility_score : ℚ
  deriving DecidableEq

/-- The `pattern_data` JSON payload of a learned pattern (the literal
dict built by `_learn_from_submission`, serialization abstracted). -/
structure PatternData where
  title_length : ℕ
  content_length : ℕ
  post_time : ℤ
  topics : List String
  deriving DecidableEq

/-- One row of the learned_patterns table. -/
structure PatternRow where
  pattern_id : ℕ
  subreddit : String
  pattern_type : String
  pattern_data : PatternData
  confidence : ℚ
  utility_score : ℚ
  last_updated : ℚ
  deriving DecidableEq

/-- Database state: the submissions and learned_patterns tables plus
the AUTOINCREMENT counter for pattern_id.  (action_outcomes is never
touched by the logic under verification and is omitted.) -/
structure DB where
  submissions : List SubmissionRow
  patterns : List PatternRow
  nextPatternId : ℕ
  deriving DecidableEq

/-- The freshly created database: `setup_database` on a new file. -/
def emptyDB : DB := { submissions := [], patterns := [], nextPatternId := 1 }

/-- Storage-layer errors distinguishable in this model. -/
inductive DBError where
  | uniqueConstraintViolation
  deriving DecidableEq

/-- `Database.is_submission_processed`: SELECT 1 WHERE submission_id = ?. -/
def is_submission_processed (db : DB) (submission_id : String) : Bool :=
  db.submissions.any (fun r => r.submission_id == submission_id)

/-- The row `Database.store_submission` inserts (`now` supplies
`datetime.now().timestamp()`). -/
def mkSubmissionRow (sub : Submission) (analysis : Analysis)
    (utility_score : ℚ) (now : ℚ) : SubmissionRow :=
  { submission_id := sub.id
    title := sub.title
    content := sub.selftext
    author := sub.author
    subreddit := sub.subreddit
    created_utc := sub.created_utc
    processed_at := now
    sentiment := analysisSentiment analysis
    topics := analysisTopics analysis
    engagement_score := analysisEngagement analysis
    utility_score := utility_score }

/-- `Database.store_submission`: a plain INSERT.  The PRIMARY KEY
constraint rejects a duplicate submission_id atomically (the existence
test is exactly what the unique index enforces); on success the row is
appended. -/
def store_submission (db : DB) (sub : Submission) (analysis : Analysis)
    (utility_score : ℚ) (now : ℚ) : Except DBError DB :=
  if is_submission_processed db sub.id then
    Except.error DBError.uniqueConstraintViolation
  else
    Except.ok { db with
      submissions := db.submissions ++ [mkSubmissionRow sub analysis utility_score now] }

/-- `Database.store_pattern`: append with the next AUTOINCREMENT id;
the confidence value is stored in both the confidence and utility_score
columns, as in the source. -/
def store_pattern (db : DB) (subreddit pattern_type : String)
    (pattern_data : PatternData) (confidence : ℚ) (now : ℚ) : DB :=
  { db with
    patterns := db.patterns ++ [{
      pattern_id := db.nextPatternId
      subreddit := subreddit
      pattern_type := pattern_type
      pattern_data := pattern_data
      confidence := confidence
      utility_score := confidence
      last_updated := now }]
    nextPatternId := db.nextPatternId + 1 }

/-- Stable insertion into a descending-by-confidence list: the new
element goes after every element of greater-or-equal confidence. -/
def insertDesc (x : PatternRow) : List PatternRow → List PatternRow
  | [] => [x]
  | y :: ys => if y.confidence < x.confidence then x :: y :: ys else y :: insertDesc x ys

/-- Stable descending sort by confidence, processing the input in
order; models both the SQL `ORDER BY confidence DESC` (over rowid scan
order) and Python's stable `sorted(..., reverse=True)`. -/
def sortByConfDesc (l : List PatternRow) : List PatternRow :=
  l.foldl (fun acc x => insertDesc x acc) []

/-- `Database.get_patterns`: the rows for one subreddit, ordered by
confidence descending. -/
def get_patterns (db : DB) (subreddit : String) : List PatternRow :=
  sortByConfDesc (db.patterns.filter (fun p => p.subreddit == subreddit))

/-- Number of submissions-table rows carrying a given id. -/
def submissionRowCount (db : DB) (submission_id : String) : ℕ :=
  (db.submissions.filter (fun r => r.submission_id == submission_id)).length

/-! ## Agent (src/reddit_agent/agent.py) -/

/-- The four configured utility weights (`utility_weights` in
`__init__`, read from WEIGHT_* environment variables). -/
structure UtilityWeights where
  engagement : ℚ
  sentiment : ℚ
  relevance : ℚ
  novelty : ℚ
  deriving DecidableEq

/-- The default weight configuration (0.4, 0.2, 0.2, 0.2). -/
def defaultWeights : UtilityWeights :=
  { engagement := 2/5, sentiment := 1/5, relevance := 1/5, novelty := 1/5 }

/-- `RedditAIAgent.calculate_utility`: the weighted sum of the four
metric components, no normalization. -/
def calculate_utility (w : UtilityWeights) (m : UtilityMetrics) : ℚ :=
  w.engagement * m.engagement_rate +
  w.sentiment * m.sentiment_score +
  w.relevance * m.relevance_score +
  w.novelty * m.novelty_score

/-- The weights as a 4-vector, for the dot-product reading. -/
def weightsVec (w : UtilityWeights) : Fin 4 → ℚ :=
  ![w.engagement, w.sentiment, w.relevance, w.novelty]

/-- The metrics as a 4-vector, for the dot-product reading. -/
def metricsVec (m : UtilityMetrics) : Fin 4 → ℚ :=
  ![m.engagement_rate, m.sentiment_score, m.relevance_score, m.novelty_score]

/-- A value stored in a per-subreddit model dict.  `num` covers every
Python value `float()` coerces (the claims only observe the coerced
number); `strVal`/`strList` cover values on which `float()` raises
(non-numeric strings; lists). -/
inductive MVal where
  | num (q : ℚ)
  | strVal (s : String)
  | strList (l : List String)
  deriving DecidableEq

/-- Python `float(v)`: the coerced value, or `none` when `float`
raises ValueError/TypeError. -/
def coerceNum : MVal → Option ℚ
  | MVal.num q => some q
  | MVal.strVal _ => none
  | MVal.strList _ => none

/-- One subreddit's model: a dict of named signals. -/
abbrev Model := List (String × MVal)

/-- One key/value step of `update_model`'s loop over `new_data`:
topics is overwritten; otherwise `float` is tried on the stored value
(defaulting to 0 only when the key is absent) and on the new value, and
a success on both smooths while any coercion failure falls into the
except branch, which writes the new value verbatim. -/
def updateKey (α : ℚ) (m : Model) (k : String) (v : MVal) : Model :=
  if k = "topics" then setAssoc m k v
  else
    match coerceNum ((lookupAssoc m k).getD (MVal.num 0)), coerceNum v with
    | some old_value, some new_value =>
        setAssoc m k (MVal.num ((1 - α) * old_value + α * new_value))
    | _, _ => setAssoc m k v

/-- The loop body of `update_model` over all of `new_data`, in dict
iteration (= insertion) order. -/
def applyUpdates (α : ℚ) (m : Model) (newData : Model) : Model :=
  newData.foldl (fun acc kv => updateKey α acc kv.1 kv.2) m

/-- Agent state: database handle, the in-memory `subreddit_models`
dict, and the configuration read at startup. -/
structure AgentState where
  db : DB
  subreddit_models : List (String × Model)
  learning_rate : ℚ
  utility_weights : UtilityWeights
  deriving DecidableEq

/-- `RedditAIAgent.update_model`: first observation stored verbatim,
later ones folded in key by key. -/
def update_model (st : AgentState) (subreddit : String) (newData : Model) : AgentState :=
  match lookupAssoc st.subreddit_models subreddit with
  | none =>
      { st with subreddit_models := setAssoc st.subreddit_models subreddit newData }
  | some m =>
      { st with subreddit_models :=
          setAssoc st.subreddit_models subreddit (applyUpdates st.learning_rate m newData) }

/-- The local hour of `datetime.fromtimestamp(created_utc)` (timezone
abstracted to UTC). -/
def postHour (created_utc : ℤ) : ℤ := created_utc / 3600 % 24

/-- `RedditAIAgent._learn_from_submission`: persist a successful_post
pattern whose confidence is the utility score. -/
def learn_from_submission (db : DB) (sub : Submission) (analysis : Analysis)
    (utility_score : ℚ) (now : ℚ) : DB :=
  store_pattern db sub.subreddit "successful_post"
    { title_length := sub.title.length
      content_length := sub.selftext.length
      post_time := postHour sub.created_utc
      topics := analysisTopics analysis }
    utility_score now

/-- The metrics vector built inside the `process_subreddit` loop. -/
def submissionMetrics (now : ℚ) (sub : Submission) : UtilityMetrics :=
  let analysis := analyze_submission sub
  { engagement_rate := calculate_engagement_rate now sub
    sentiment_score := analysisSentiment analysis
    relevance_score := calculate_relevance sub analysis
    novelty_score := calculate_novelty sub analysis }

/-- One entry of the processed-submissions list `process_subreddit`
returns. -/
structure ProcessedEntry where
  id : String
  title : String
  utility_score : ℚ
  metrics : UtilityMetrics
  deriving DecidableEq

/-- The distinct error kinds `process_subreddit` logs. -/
inductive LogEntry where
  | privateSubreddit (name : String)
  | subredditNotFound (name : String)
  | forbiddenSubreddit (name : String)
  | genericSubredditFailure (name : String) (msg : String)
  | submissionFailure (submission_id : String)
  deriving DecidableEq

/-- Outcome of the accessibility check on `subreddit.subreddit_type`:
fine, «private», a raised prawcore Redirect (nonexistent), a raised
Forbidden, or any other exception. -/
inductive AccessResult where
  | accessible
  | privateSub
  | redirect
  | forbidden
  | otherFailure (msg : String)
  deriving DecidableEq

/-- One fetched submission together with a fault injection: `true`
means the storage layer raises on this submission's
`store_submission` call (e.g. the database is unavailable), which the
per-submission handler catches. -/
abbrev SubItem := Submission × Bool

/-- The per-submission body of the `process_subreddit` loop: skip if
already processed; otherwise analyze, score, store, update the model
and conditionally learn.  Any raise inside the body (a duplicate-key
IntegrityError or the injected storage fault) is caught by the
`except` around the body: the state is left as it was and an error is
logged. -/
def processOne (st : AgentState) (name : String) (now : ℚ) (item : SubItem) :
    AgentState × Option ProcessedEntry × List LogEntry :=
  let sub := item.1
  if is_submission_processed st.db sub.id then
    (st, none, [])
  else
    let analysis := analyze_submission sub
    let metrics := submissionMetrics now sub
    let utility_score := calculate_utility st.utility_weights metrics
    if item.2 then
      (st, none, [LogEntry.submissionFailure sub.id])
    else
      match store_submission st.db sub analysis utility_score now with
      | Except.error _ => (st, none, [LogEntry.submissionFailure sub.id])
      | Except.ok db1 =>
        let st1 := update_model { st with db := db1 } name
          [("avg_engagement", MVal.num metrics.engagement_rate),
           ("avg_sentiment", MVal.num metrics.sentiment_score),
           ("avg_relevance", MVal.num metrics.relevance_score),
           ("avg_novelty", MVal.num metrics.novelty_score)]
        let st2 :=
          if utility_score > 7/10 then
            { st1 with db := learn_from_submission st1.db sub analysis utility_score now }
          else st1
        (st2,
         some { id := sub.id, title := sub.title,
                utility_score := utility_score, metrics := metrics },
         [])

/-- The `for submission in subreddit.new(...)` loop: each item is
processed independently and in order; a failed item contributes a log
entry and the loop continues. -/
def processItems (st : AgentState) (name : String) (now : ℚ) :
    List SubItem → AgentState × List ProcessedEntry × List LogEntry
  | [] => (st, [], [])
  | item :: rest =>
    let r1 := processOne st name now item
    let r2 := processItems r1.1 name now rest
    (r2.1, r1.2.1.toList ++ r2.2.1, r1.2.2 ++ r2.2.2)

/-- `RedditAIAgent.process_subreddit`: the accessibility check first
(each failure kind returns an empty result with its own log entry and
leaves all state untouched), then the per-submission loop.  The
function is total: no path re-raises to the caller. -/
def process_subreddit (st : AgentState) (name : String) (access : AccessResult)
    (items : List SubItem) (now : ℚ) :
    AgentState × List ProcessedEntry × List LogEntry :=
  match access with
  | AccessResult.accessible => processItems st name now items
  | AccessResult.privateSub => (st, [], [LogEntry.privateSubreddit name])
  | AccessResult.redirect => (st, [], [LogEntry.subredditNotFound name])
  | AccessResult.forbidden => (st, [], [LogEntry.forbiddenSubreddit name])
  | AccessResult.otherFailure msg => (st, [], [LogEntry.genericSubredditFailure name msg])

/-- One recommendation returned by `get_recommendations`. -/
structure Recommendation where
  rec_type : String
  confidence : ℚ
  suggestion : String
  deriving DecidableEq

/-- `RedditAIAgent._generate_suggestion`: template for recognized
pattern types, generic placeholder otherwise. -/
def generate_suggestion (p : PatternRow) (_model_data : Model) : String :=
  if p.pattern_type = "successful_post" then
    "Consider posting during hour " ++ toString p.pattern_data.post_time ++
    " with content length around " ++ toString p.pattern_data.content_length ++
    " characters focusing on topics: " ++ String.intercalate ", " p.pattern_data.topics
  else
    "No specific suggestion available"

/-- `RedditAIAgent.get_recommendations`: empty unless both the stored
patterns and the in-memory model data are non-empty (`if patterns and
model_data`); otherwise the five best patterns by confidence, each
rendered into a suggestion. -/
def get_recommendations (st : AgentState) (subreddit : String) : List Recommendation :=
  let patterns := get_patterns st.db subreddit
  let model_data := (lookupAssoc st.subreddit_models subreddit).getD []
  if !patterns.isEmpty && !model_data.isEmpty then
    ((sortByConfDesc patterns).take 5).map (fun p =>
      { rec_type := p.pattern_type
        confidence := p.confidence
        suggestion := generate_suggestion p model_data })
  else []

/-! ## Market-insights pipeline (src/main.py, analyze_subreddit)

The per-post loop of `analyze_subreddit`: stickied posts are skipped
before any analysis; the oracle verdict on each remaining post is an
input field. -/

/-- A post as seen by main.analyze_subreddit, with the oracle's
market-need verdict attached as input. -/
structure MarketPost where
  stickied : Bool
  title : String
  score : ℤ
  permalink : String
  is_need : Bool
  confidence : ℚ
  deriving DecidableEq

/-- One recorded market need. -/
structure NeedInfo where
  title : String
  score : ℤ
  confidence : ℚ
  deriving DecidableEq

/-- The `for post in post_list` loop of main.analyze_subreddit:
returns (posts_analyzed, needs_found).  A stickied post is skipped
before any analysis and is not counted. -/
def analyzePosts : List MarketPost → ℕ × List NeedInfo
  | [] => (0, [])
  | p :: rest =>
    if p.stickied then analyzePosts rest
    else
      let r := analyzePosts rest
      (r.1 + 1,
       (if p.is_need && decide (p.confidence > 3/5) then
          [{ title := p.title, score := p.score, confidence := p.confidence }]
        else []) ++ r.2)

/-! ## Concrete instances used by witnesses and counterexamples -/

/-- A plain fresh submission (score 50, 10 comments, posted at epoch 0). -/
def plainSub : Submission :=
  { id := "a1", title := "hello", selftext := "body", author := "u",
    subreddit := "x", created_utc := 0, score := 50, comments := some 10,
    stickied := false }

/-- Agent state at startup with the default configuration. -/
def baseState : AgentState :=
  { db := emptyDB, subreddit_models := [], learning_rate := 1/10,
    utility_weights := defaultWeights }

/-- A weight configuration putting all mass on engagement (the WEIGHT_*
environment variables allow any values). -/
def fullWeightEngagement : UtilityWeights :=
  { engagement := 1, sentiment := 0, relevance := 0, novelty := 0 }

/-- Startup state configured with `fullWeightEngagement`. -/
def highUtilityState : AgentState :=
  { baseState with utility_weights := fullWeightEngagement }

/-- A submission whose utility under `fullWeightEngagement` is 0.8 at
now = 3600. -/
def highUtilitySub : Submission :=
  { plainSub with id := "a2", score := 80, comments := some 0 }

/-- A stickied fresh submission. -/
def stickiedSub : Submission :=
  { plainSub with id := "st1", stickied := true }

/-- Engagement example: score 0, no comments, age 0. -/
def engagementZeroSub : Submission :=
  { plainSub with id := "e0", score := 0, comments := some 0 }

/-- Engagement example: score 200, no comments (age 3600 at now = 3600). -/
def engagementClampSub : Submission :=
  { plainSub with id := "e1", score := 200, comments := some 0 }

/-- A downvoted submission: score -100, no comments. -/
def negativeScoreSub : Submission :=
  { plainSub with id := "e2", score := -100, comments := some 0 }

/-- State whose model for «s» holds the numeric signal k = 0.5. -/
def smoothPriorState : AgentState :=
  { baseState with subreddit_models := [("s", [("k", MVal.num (1/2))])] }

/-- State whose model for «s» holds a non-numeric value under k. -/
def nonNumericPriorState : AgentState :=
  { baseState with subreddit_models := [("s", [("k", MVal.strVal "abc")])] }

/-- A sample learned-pattern payload. -/
def examplePatternData : PatternData :=
  { title_length := 5, content_length := 4, post_time := 0, topics := ["general"] }

/-- State holding one stored pattern for «s» and no model data. -/
def onePatternState : AgentState :=
  { baseState with
    db := store_pattern emptyDB "s" "successful_post" examplePatternData (4/5) 0 }

/-- A stickied post in the market-insights pipeline. -/
def stickiedPost : MarketPost :=
  { stickied := true, title := "t", score := 1, permalink := "p",
    is_need := true, confidence := 1 }

/-- The all-one-half metrics vector. -/
def halfMetrics : UtilityMetrics :=
  { engagement_rate := 1/2, sentiment_score := 1/2,
    relevance_score := 1/2, novelty_score := 1/2 }

/-- Wrapper text before a JSON object (no opening brace). -/
def wrapPre : List Char := ['x', ' ']

/-- The inside of a wrapped JSON object (between its braces). -/
def wrapMid : List Char := ['"', 'a', '"', ':', '1']

/-- Wrapper text after a JSON object (no closing brace). -/
def wrapPost : List Char := [' ', 'y']

/-- The parse of the wrapped object. -/
def wrapObj : JObj := [(['a'], JVal.jnum 1)]

/-! ## Helper lemmas -/

/-- An id absent from the table filters to no rows. -/
theorem filter_eq_nil_of_not_processed (db : DB) (id : String)
    (h : is_submission_processed db id = false) :
    db.submissions.filter (fun r => r.submission_id == id) = [] := by
  rw [List.filter_eq_nil_iff]
  intro r hr
  have := List.any_eq_false.mp h r hr
  simpa using this

/-- Claim C1: at most one submissions row per identifier —
`is_submission_processed` is false before `store_submission` for that id
and true after; the PRIMARY KEY makes a second insert with the same id
fail without creating a second row, leaving exactly one row. -/
theorem C1_dedup_invariant (db : DB) (sub : Submission) (a : Analysis) (u t : ℚ)
    (h : is_submission_processed db sub.id = false) :
    ∃ db', store_submission db sub a u t = Except.ok db' ∧
      is_submission_processed db' sub.id = true ∧
      submissionRowCount db' sub.id = 1 ∧
      ∀ (sub2 : Submission) (a2 : Analysis) (u2 t2 : ℚ), sub2.id = sub.id →
        store_submission db' sub2 a2 u2 t2 =
          Except.error DBError.uniqueConstraintViolation := by
  refine ⟨{ db with submissions :=
      db.submissions ++ [mkSubmissionRow sub a u t] }, ?_, ?_, ?_, ?_⟩
  · simp [store_submission, h]
  · simp [is_submission_processed, List.any_append, mkSubmissionRow]
  · simp [submissionRowCount, List.filter_append,
      filter_eq_nil_of_not_processed db sub.id h, mkSubmissionRow]
  · intro sub2 a2 u2 t2 hid
    have hproc : is_submission_processed
        { db with submissions := db.submissions ++ [mkSubmissionRow sub a u t] }
        sub2.id = true := by
      simp [is_submission_processed, List.any_append, mkSubmissionRow, hid]
    simp [store_submission, hproc]

/-- Witness for C1 at a concrete fresh database and submission. -/
theorem C1_dedup_invariant_witness :
    is_submission_processed emptyDB plainSub.id = false ∧
    ∃ db', store_submission emptyDB plainSub (analyze_submission plainSub) (1/2) 0 =
        Except.ok db' ∧
      is_submission_processed db' plainSub.id = true ∧
      submissionRowCount db' plainSub.id = 1 ∧
      ∀ (sub2 : Submission) (a2 : Analysis) (u2 t2 : ℚ), sub2.id = plainSub.id →
        store_submission db' sub2 a2 u2 t2 =
          Except.error DBError.uniqueConstraintViolation :=
  ⟨by decide,
   C1_dedup_invariant emptyDB plainSub (analyze_submission plainSub) (1/2) 0 (by decide)⟩

/-- Claim C2: `calculate_utility` is the dot product of the four
configured weights with the four metric components, with no
normalization; with non-negative weights summing to 1 and metrics in
[0,1]^4 the result lies in [0,1]. -/
theorem C2_utility_dot_bounds (w : UtilityWeights) (m : UtilityMetrics)
    (hw1 : 0 ≤ w.engagement) (hw2 : 0 ≤ w.sentiment)
    (hw3 : 0 ≤ w.relevance) (hw4 : 0 ≤ w.novelty)
    (hsum : w.engagement + w.sentiment + w.relevance + w.novelty = 1)
    (hm1 : 0 ≤ m.engagement_rate) (hm1' : m.engagement_rate ≤ 1)
    (hm2 : 0 ≤ m.sentiment_score) (hm2' : m.sentiment_score ≤ 1)
    (hm3 : 0 ≤ m.relevance_score) (hm3' : m.relevance_score ≤ 1)
    (hm4 : 0 ≤ m.novelty_score) (hm4' : m.novelty_score ≤ 1) :
    calculate_utility w m = Matrix.dotProduct (weightsVec w) (metricsVec m) ∧
    0 ≤ calculate_utility w m ∧ calculate_utility w m ≤ 1 := by
  refine ⟨?_, ?_, ?_⟩
  · simp [calculate_utility, Matrix.dotProduct, weightsVec, metricsVec,
      Fin.sum_univ_four]
  · have p1 : 0 ≤ w.engagement * m.engagement_rate := mul_nonneg hw1 hm1
    have p2 : 0 ≤ w.sentiment * m.sentiment_score := mul_nonneg hw2 hm2
    have p3 : 0 ≤ w.relevance * m.relevance_score := mul_nonneg hw3 hm3
    have p4 : 0 ≤ w.novelty * m.novelty_score := mul_nonneg hw4 hm4
    unfold calculate_utility
    linarith
  · have q1 : w.engagement * m.engagement_rate ≤ w.engagement := by
      nlinarith
    have q2 : w.sentiment * m.sentiment_score ≤ w.sentiment := by
      nlinarith
    have q3 : w.relevance * m.relevance_score ≤ w.relevance := by
      nlinarith
    have q4 : w.novelty * m.novelty_score ≤ w.novelty := by
      nlinarith
    unfold calculate_utility
    linarith

/-- Witness for C2 at the default weights and the all-one-half metrics
vector. -/
theorem C2_utility_dot_bounds_witness :
    calculate_utility defaultWeights halfMetrics =
      Matrix.dotProduct (weightsVec defaultWeights) (metricsVec halfMetrics) ∧
    0 ≤ calculate_utility defaultWeights halfMetrics ∧
    calculate_utility defaultWeights halfMetrics ≤ 1 :=
  C2_utility_dot_bounds defaultWeights halfMetrics
    (by norm_num [defaultWeights]) (by norm_num [defaultWeights])
    (by norm_num [defaultWeights]) (by norm_num [defaultWeights])
    (by norm_num [defaultWeights])
    (by norm_num [halfMetrics]) (by norm_num [halfMetrics])
    (by norm_num [halfMetrics]) (by norm_num [halfMetrics])
    (by norm_num [halfMetrics]) (by norm_num [halfMetrics])
    (by norm_num [halfMetrics]) (by norm_num [halfMetrics])

/-- Setting a key makes it the lookup result. -/
theorem lookupAssoc_setAssoc_self {β : Type} (l : List (String × β)) (k : String) (v : β) :
    lookupAssoc (setAssoc l k v) k = some v := by
  induction l with
  | nil => simp [setAssoc, lookupAssoc]
  | cons p rest ih =>
    by_cases hpk : p.1 = k
    · simp [setAssoc, hpk, lookupAssoc]
    · simp [setAssoc, hpk, lookupAssoc, ih]

/-- The smoothing branch of `updateKey`: both coercions succeed. -/
theorem updateKey_smooth (α : ℚ) (m : Model) (k : String) (v : MVal) (o n : ℚ)
    (hk : k ≠ "topics")
    (ho : coerceNum ((lookupAssoc m k).getD (MVal.num 0)) = some o)
    (hn : coerceNum v = some n) :
    updateKey α m k v = setAssoc m k (MVal.num ((1 - α) * o + α * n)) := by
  unfold updateKey
  rw [if_neg hk, ho, hn]

/-- The except branch of `updateKey`: either coercion raises, and the
observation is written verbatim. -/
theorem updateKey_verbatim (α : ℚ) (m : Model) (k : String) (v : MVal)
    (hk : k ≠ "topics")
    (h : coerceNum ((lookupAssoc m k).getD (MVal.num 0)) = none ∨ coerceNum v = none) :
    updateKey α m k v = setAssoc m k v := by
  unfold updateKey
  rw [if_neg hk]
  rcases h1 : coerceNum ((lookupAssoc m k).getD (MVal.num 0)) with _ | o <;>
    rcases h2 : coerceNum v with _ | q <;> simp_all

/-- Claim C3 counterexample: when the stored old value is non-numeric
(`float` raises on it), the code overwrites with the observation
verbatim — with α = 0.1, old = «abc», new = 1.0 the stored result is
1.0, not the claimed (1 − α)·0 + α·1.0 = 0.1. -/
theorem C3_counterexample :
    (update_model nonNumericPriorState "s" [("k", MVal.num 1)]).subreddit_models =
      [("s", [("k", MVal.num 1)])] ∧
    MVal.num 1 ≠ MVal.num ((1 - (1/10 : ℚ)) * 0 + (1/10) * 1) := by
  constructor
  · simp [update_model, nonNumericPriorState, baseState, lookupAssoc,
      applyUpdates, updateKey, coerceNum, setAssoc]
  · intro hEq
    rw [MVal.num.injEq] at hEq
    norm_num at hEq

/-- Claim C3 (amended): `update_model` with no prior state stores the
observations verbatim; with prior state it updates key by key —
`topics` is overwritten; when both the stored value (defaulting to 0
only when the key is ABSENT) and the observation coerce to numbers the
smoothed value (1 − α)·old + α·new is stored (α = 0.1, old = 0.5,
new = 1.0 gives 0.55); when the observation, or the PRESENT stored old
value, cannot be coerced to a number, the observation is written
verbatim, and no failure propagates (the function is total). -/
theorem C3_update_model (st : AgentState) (sub : String) (data : Model)
    (m : Model) (k : String) (v w : MVal) (o n : ℚ) :
    (lookupAssoc st.subreddit_models sub = none →
      lookupAssoc (update_model st sub data).subreddit_models sub = some data) ∧
    (lookupAssoc st.subreddit_models sub = some m → k ≠ "topics" →
      lookupAssoc m k = some (MVal.num o) →
      lookupAssoc (update_model st sub [(k, MVal.num n)]).subreddit_models sub =
        some (setAssoc m k
          (MVal.num ((1 - st.learning_rate) * o + st.learning_rate * n)))) ∧
    (lookupAssoc st.subreddit_models sub = some m → k ≠ "topics" →
      lookupAssoc m k = none →
      lookupAssoc (update_model st sub [(k, MVal.num n)]).subreddit_models sub =
        some (setAssoc m k
          (MVal.num ((1 - st.learning_rate) * 0 + st.learning_rate * n)))) ∧
    (lookupAssoc st.subreddit_models sub = some m →
      lookupAssoc (update_model st sub [("topics", v)]).subreddit_models sub =
        some (setAssoc m "topics" v)) ∧
    (lookupAssoc st.subreddit_models sub = some m → k ≠ "topics" →
      coerceNum v = none →
      lookupAssoc (update_model st sub [(k, v)]).subreddit_models sub =
        some (setAssoc m k v)) ∧
    (lookupAssoc st.subreddit_models sub = some m → k ≠ "topics" →
      lookupAssoc m k = some w → coerceNum w = none →
      lookupAssoc (update_model st sub [(k, v)]).subreddit_models sub =
        some (setAssoc m k v)) ∧
    (update_model smoothPriorState "s" [("k", MVal.num 1)]).subreddit_models =
      [("s", [("k", MVal.num (11/20))])] := by
  refine ⟨?_, ?_, ?_, ?_, ?_, ?_, ?_⟩
  · intro h
    simp [update_model, h, lookupAssoc_setAssoc_self]
  · intro h hk hold
    have hstep := updateKey_smooth st.learning_rate m k (MVal.num n) o n hk
      (by rw [hold]; rfl) rfl
    simp [update_model, h, lookupAssoc_setAssoc_self, applyUpdates, hstep]
  · intro h hk hold
    have hstep := updateKey_smooth st.learning_rate m k (MVal.num n) 0 n hk
      (by rw [hold]; rfl) rfl
    simp [update_model, h, lookupAssoc_setAssoc_self, applyUpdates, hstep]
  · intro h
    simp [update_model, h, lookupAssoc_setAssoc_self, applyUpdates, updateKey]
  · intro h hk hv
    have hstep := updateKey_verbatim st.learning_rate m k v hk (Or.inr hv)
    simp [update_model, h, lookupAssoc_setAssoc_self, applyUpdates, hstep]
  · intro h hk hold hw
    have hstep := updateKey_verbatim st.learning_rate m k v hk
      (Or.inl (by rw [hold]; exact hw))
    simp [update_model, h, lookupAssoc_setAssoc_self, applyUpdates, hstep]
  · have hstep := updateKey_smooth (1/10 : ℚ) [("k", MVal.num (1/2))] "k"
      (MVal.num 1) (1/2) 1 (by simp) rfl rfl
    rw [show ((1 - (1/10 : ℚ)) * (1/2) + (1/10) * 1) = 11/20 by norm_num] at hstep
    simp at hstep
    simp [update_model, smoothPriorState, baseState, lookupAssoc,
      applyUpdates, setAssoc, hstep]

/-- Witness for C3 (amended) at concrete states: the fresh-community
clause and the 0.5 → 0.55 smoothing clause, both discharged at explicit
inputs. -/
theorem C3_update_model_witness :
    (lookupAssoc baseState.subreddit_models "s" = none ∧
      lookupAssoc (update_model baseState "s"
          [("k", MVal.num 1)]).subreddit_models "s" = some [("k", MVal.num 1)]) ∧
    (lookupAssoc smoothPriorState.subreddit_models "s" = some [("k", MVal.num (1/2))] ∧
      lookupAssoc (update_model smoothPriorState "s"
          [("k", MVal.num 1)]).subreddit_models "s" =
        some (setAssoc [("k", MVal.num (1/2))] "k"
          (MVal.num ((1 - smoothPriorState.learning_rate) * (1/2) +
            smoothPriorState.learning_rate * 1)))) :=
  ⟨⟨rfl,
    (C3_update_model baseState "s" [("k", MVal.num 1)] [] "k" (MVal.num 1)
      (MVal.num 1) 0 0).1 rfl⟩,
   ⟨rfl,
    (C3_update_model smoothPriorState "s" [("k", MVal.num 1)]
      [("k", MVal.num (1/2))] "k" (MVal.num 1) (MVal.num 1) (1/2) 1).2.1
      rfl (by simp) rfl⟩⟩

/-- Claim C4 counterexample: the engagement rate is NOT always in
[0,1] — a Reddit score may be negative and the formula only clamps from
above, so score = -100, comments = 0, age = 0 gives -1. -/
theorem C4_counterexample :
    calculate_engagement_rate 0 negativeScoreSub = -1 ∧
    calculate_engagement_rate 0 negativeScoreSub < 0 := by
  have h : calculate_engagement_rate 0 negativeScoreSub = -1 := by
    norm_num [calculate_engagement_rate, negativeScoreSub, plainSub,
      max_def, min_def]
  exact ⟨h, by rw [h]; norm_num⟩

/-- Claim C4 (amended): `calculate_engagement_rate` is
min(1, (score + comment_count) / (100 · max(1, (now − created)/3600)))
with comment_count = 0 when comments are unavailable; the result is
always ≤ 1, and lies in [0,1] whenever the submission's score is
non-negative (a negative score can push it below 0); score 0 /
comments 0 / age 0 gives 0, and score 200 / comments 0 / age 3600 s
gives 1 (clamped). -/
theorem C4_engagement_rate (now : ℚ) (sub : Submission) :
    (calculate_engagement_rate now sub =
      min 1 (((sub.score : ℚ) + ((sub.comments.getD 0 : ℕ) : ℚ)) /
        (100 * max 1 ((now - (sub.created_utc : ℚ)) / 3600)))) ∧
    (sub.comments = none →
      calculate_engagement_rate now sub =
        calculate_engagement_rate now { sub with comments := some 0 }) ∧
    calculate_engagement_rate now sub ≤ 1 ∧
    (0 ≤ sub.score → 0 ≤ calculate_engagement_rate now sub) ∧
    calculate_engagement_rate 0 engagementZeroSub = 0 ∧
    calculate_engagement_rate 3600 engagementClampSub = 1 := by
  refine ⟨rfl, ?_, ?_, ?_, ?_, ?_⟩
  · intro hc
    simp [calculate_engagement_rate, hc]
  · exact min_le_left 1 _
  · intro hs
    have htf : (0 : ℚ) < max 1 ((now - (sub.created_utc : ℚ)) / 3600) :=
      lt_of_lt_of_le one_pos (le_max_left 1 _)
    have htot : (0 : ℚ) ≤ (sub.score : ℚ) + ((sub.comments.getD 0 : ℕ) : ℚ) := by
      have : (0 : ℚ) ≤ (sub.score : ℚ) := by exact_mod_cast hs
      positivity
    have hq : (0 : ℚ) ≤ ((sub.score : ℚ) + ((sub.comments.getD 0 : ℕ) : ℚ)) /
        (100 * max 1 ((now - (sub.created_utc : ℚ)) / 3600)) := by
      apply div_nonneg htot
      positivity
    exact le_min (by norm_num) hq
  · norm_num [calculate_engagement_rate, engagementZeroSub, plainSub,
      max_def, min_def]
  · norm_num [calculate_engagement_rate, engagementClampSub, plainSub,
      max_def, min_def]

/-- Witness for C4 (amended) at a concrete submission with unavailable
comments and non-negative score. -/
theorem C4_engagement_rate_witness :
    ({ plainSub with comments := none } : Submission).comments = none ∧
    (0 : ℤ) ≤ ({ plainSub with comments := none } : Submission).score ∧
    calculate_engagement_rate 3600 { plainSub with comments := none } =
      calculate_engagement_rate 3600
        { ({ plainSub with comments := none } : Submission) with comments := some 0 } ∧
    0 ≤ calculate_engagement_rate 3600 { plainSub with comments := none } :=
  ⟨rfl, by norm_num [plainSub],
   (C4_engagement_rate 3600 { plainSub with comments := none }).2.1 rfl,
   (C4_engagement_rate 3600 { plainSub with comments := none }).2.2.2.1
     (by norm_num [plainSub])⟩

/-- A fresh id makes `store_submission` succeed by appending one row. -/
theorem store_submission_ok (db : DB) (sub : Submission) (a : Analysis) (u t : ℚ)
    (h : is_submission_processed db sub.id = false) :
    store_submission db sub a u t =
      Except.ok { db with submissions := db.submissions ++ [mkSubmissionRow sub a u t] } := by
  unfold store_submission
  rw [h]
  simp

/-- Claim C5: during processing of a fresh submission, a pattern row is
appended if and only if the computed utility score strictly exceeds
0.7 (so exactly 0.7 appends nothing); the appended pattern's confidence
(and stored utility_score) equal the utility score, and its payload is
title length, content length, hour-of-day posted, and topics. -/
theorem C5_pattern_threshold (st : AgentState) (name : String) (now : ℚ)
    (sub : Submission)
    (h : is_submission_processed st.db sub.id = false) :
    (processOne st name now (sub, false)).1.db.patterns =
      st.db.patterns ++
        (if calculate_utility st.utility_weights (submissionMetrics now sub) > 7/10 then
          [{ pattern_id := st.db.nextPatternId
             subreddit := sub.subreddit
             pattern_type := "successful_post"
             pattern_data :=
               { title_length := sub.title.length
                 content_length := sub.selftext.length
                 post_time := postHour sub.created_utc
                 topics := analysisTopics (analyze_submission sub) }
             confidence := calculate_utility st.utility_weights (submissionMetrics now sub)
             utility_score := calculate_utility st.utility_weights (submissionMetrics now sub)
             last_updated := now }]
        else []) := by
  simp only [processOne, h, Bool.false_eq_true, if_false,
    store_submission_ok st.db sub (analyze_submission sub) _ now h]
  rcases hlook : lookupAssoc st.subreddit_models name with _ | mdl
  · split
    · simp [update_model, hlook, learn_from_submission, store_pattern]
    · simp [update_model, hlook]
  · split
    · simp [update_model, hlook, learn_from_submission, store_pattern]
    · simp [update_model, hlook]

/-- Witness for C5 at a submission whose utility is 0.8 under an
all-engagement weight configuration, so a pattern is appended. -/
theorem C5_pattern_threshold_witness :
    is_submission_processed highUtilityState.db highUtilitySub.id = false ∧
    (processOne highUtilityState "x" 3600 (highUtilitySub, false)).1.db.patterns =
      highUtilityState.db.patterns ++
        (if calculate_utility highUtilityState.utility_weights
            (submissionMetrics 3600 highUtilitySub) > 7/10 then
          [{ pattern_id := highUtilityState.db.nextPatternId
             subreddit := highUtilitySub.subreddit
             pattern_type := "successful_post"
             pattern_data :=
               { title_length := highUtilitySub.title.length
                 content_length := highUtilitySub.selftext.length
                 post_time := postHour highUtilitySub.created_utc
                 topics := analysisTopics (analyze_submission highUtilitySub) }
             confidence := calculate_utility highUtilityState.utility_weights
               (submissionMetrics 3600 highUtilitySub)
             utility_score := calculate_utility highUtilityState.utility_weights
               (submissionMetrics 3600 highUtilitySub)
             last_updated := 3600 }]
        else []) :=
  ⟨rfl, C5_pattern_threshold highUtilityState "x" 3600 highUtilitySub rfl⟩

/-- A fresh, fault-free submission is processed: one entry, no log. -/
theorem processOne_success (st : AgentState) (name : String) (now : ℚ)
    (sub : Submission) (h : is_submission_processed st.db sub.id = false) :
    (processOne st name now (sub, false)).2.1 =
      some { id := sub.id, title := sub.title,
             utility_score := calculate_utility st.utility_weights (submissionMetrics now sub),
             metrics := submissionMetrics now sub } ∧
    (processOne st name now (sub, false)).2.2 = [] := by
  simp only [processOne, h, Bool.false_eq_true, if_false,
    store_submission_ok st.db sub (analyze_submission sub) _ now h]
  exact ⟨trivial, trivial⟩

/-- Claim C6 counterexample: a storage-layer failure while storing one
submission does NOT surface to the caller — with the first submission's
store raising and the second fine, `process_subreddit` returns
normally: the failure is only logged and the second submission is
processed. -/
theorem C6_counterexample :
    (process_subreddit baseState "x" AccessResult.accessible
        [(highUtilitySub, true), (plainSub, false)] 3600).2.2 =
      [LogEntry.submissionFailure "a2"] ∧
    (process_subreddit baseState "x" AccessResult.accessible
        [(highUtilitySub, true), (plainSub, false)] 3600).2.1.map ProcessedEntry.id =
      ["a1"] := by
  have h1 : processOne baseState "x" 3600 (highUtilitySub, true) =
      (baseState, none, [LogEntry.submissionFailure "a2"]) := by
    simp [processOne, is_submission_processed, baseState, emptyDB,
      highUtilitySub, plainSub]
  have h2 := processOne_success baseState "x" 3600 plainSub rfl
  constructor
  · show (processItems baseState "x" 3600
        [(highUtilitySub, true), (plainSub, false)]).2.2 = _
    simp [processItems, h1, h2.2]
  · show ((processItems baseState "x" 3600
        [(highUtilitySub, true), (plainSub, false)]).2.1.map ProcessedEntry.id) = _
    simp [processItems, h1, h2.1, h2.2]
    try simp [plainSub]

/-- Claim C6 (amended): failures in `process_subreddit` are contained
at their scope — an inaccessible community (private, nonexistent,
forbidden, or any other access failure) terminates the call early with
an empty result and its own distinct log kind, leaving all state
untouched; an exception thrown while processing a single submission
(here: a storage-layer failure at its store step) is caught and logged
and processing continues with the next submission.  NOTHING surfaces to
the caller — contrary to the claim, storage-layer unavailability during
submission processing is also swallowed by the per-submission handler
(the function is total and never re-raises). -/
theorem C6_error_containment :
    (∀ (st : AgentState) (name : String) (items : List SubItem) (now : ℚ),
      process_subreddit st name AccessResult.privateSub items now =
        (st, [], [LogEntry.privateSubreddit name]) ∧
      process_subreddit st name AccessResult.redirect items now =
        (st, [], [LogEntry.subredditNotFound name]) ∧
      process_subreddit st name AccessResult.forbidden items now =
        (st, [], [LogEntry.forbiddenSubreddit name])) ∧
    (∀ (st : AgentState) (name msg : String) (items : List SubItem) (now : ℚ),
      process_subreddit st name (AccessResult.otherFailure msg) items now =
        (st, [], [LogEntry.genericSubredditFailure name msg])) ∧
    (∀ (st : AgentState) (name : String) (now : ℚ) (sub : Submission)
        (rest : List SubItem),
      is_submission_processed st.db sub.id = false →
      process_subreddit st name AccessResult.accessible ((sub, true) :: rest) now =
        ((process_subreddit st name AccessResult.accessible rest now).1,
         (process_subreddit st name AccessResult.accessible rest now).2.1,
         LogEntry.submissionFailure sub.id ::
           (process_subreddit st name AccessResult.accessible rest now).2.2)) := by
  refine ⟨fun st name items now => ⟨rfl, rfl, rfl⟩,
    fun st name msg items now => rfl, ?_⟩
  intro st name now sub rest h
  have h1 : processOne st name now (sub, true) =
      (st, none, [LogEntry.submissionFailure sub.id]) := by
    simp [processOne, h]
  show processItems st name now ((sub, true) :: rest) = _
  simp [processItems, process_subreddit, h1]

/-- Witness for C6 (amended): the private-community early return and
the caught storage failure, at concrete inputs. -/
theorem C6_error_containment_witness :
    process_subreddit baseState "x" AccessResult.privateSub [] 0 =
      (baseState, [], [LogEntry.privateSubreddit "x"]) ∧
    is_submission_processed baseState.db highUtilitySub.id = false ∧
    process_subreddit baseState "x" AccessResult.accessible [(highUtilitySub, true)] 0 =
      ((process_subreddit baseState "x" AccessResult.accessible [] 0).1,
       (process_subreddit baseState "x" AccessResult.accessible [] 0).2.1,
       LogEntry.submissionFailure highUtilitySub.id ::
         (process_subreddit baseState "x" AccessResult.accessible [] 0).2.2) :=
  ⟨(C6_error_containment.1 baseState "x" [] 0).1, rfl,
   C6_error_containment.2.2 baseState "x" 0 highUtilitySub [] rfl⟩

/-- Membership in an `insertDesc` result. -/
theorem mem_insertDesc {x z : PatternRow} : ∀ {l : List PatternRow},
    z ∈ insertDesc x l ↔ z = x ∨ z ∈ l := by
  intro l
  induction l with
  | nil => simp [insertDesc]
  | cons y ys ih =>
    by_cases hc : y.confidence < x.confidence
    · simp [insertDesc, hc]
    · simp only [insertDesc, if_neg hc, List.mem_cons, ih]
      tauto

/-- `insertDesc` preserves the descending-by-confidence ordering. -/
theorem pairwise_insertDesc {x : PatternRow} : ∀ {l : List PatternRow},
    l.Pairwise (fun a b => b.confidence ≤ a.confidence) →
    (insertDesc x l).Pairwise (fun a b => b.confidence ≤ a.confidence) := by
  intro l
  induction l with
  | nil => intro _; simp [insertDesc]
  | cons y ys ih =>
    intro h
    rcases List.pairwise_cons.mp h with ⟨hy, hys⟩
    by_cases hc : y.confidence < x.confidence
    · simp only [insertDesc, if_pos hc]
      refine List.pairwise_cons.mpr ⟨?_, h⟩
      intro z hz
      rcases List.mem_cons.mp hz with rfl | hz2
      · exact le_of_lt hc
      · exact le_trans (hy z hz2) (le_of_lt hc)
    · simp only [insertDesc, if_neg hc]
      refine List.pairwise_cons.mpr ⟨?_, ih hys⟩
      intro z hz
      rcases mem_insertDesc.mp hz with rfl | hz2
      · exact not_lt.mp hc
      · exact hy z hz2

/-- The stable descending sort is sorted. -/
theorem pairwise_sortByConfDesc (l : List PatternRow) :
    (sortByConfDesc l).Pairwise (fun a b => b.confidence ≤ a.confidence) := by
  suffices h : ∀ (l acc : List PatternRow),
      acc.Pairwise (fun a b => b.confidence ≤ a.confidence) →
      (l.foldl (fun a x => insertDesc x a) acc).Pairwise
        (fun a b => b.confidence ≤ a.confidence) by
    exact h l [] (by simp)
  intro l
  induction l with
  | nil => intro acc h; simpa using h
  | cons x xs ih => intro acc h; exact ih _ (pairwise_insertDesc h)

/-- Inserting into a sorted-descending list places the new element
after every element of equal confidence. -/
theorem filter_insertDesc (x : PatternRow) (q : ℚ) : ∀ (l : List PatternRow),
    l.Pairwise (fun a b => b.confidence ≤ a.confidence) →
    (insertDesc x l).filter (fun p => decide (p.confidence = q)) =
      if x.confidence = q then
        l.filter (fun p => decide (p.confidence = q)) ++ [x]
      else l.filter (fun p => decide (p.confidence = q)) := by
  intro l
  induction l with
  | nil =>
    intro _
    by_cases hx : x.confidence = q <;> simp [insertDesc, List.filter_cons, hx]
  | cons y ys ih =>
    intro h
    rcases List.pairwise_cons.mp h with ⟨hy, hys⟩
    by_cases hc : y.confidence < x.confidence
    · simp only [insertDesc, if_pos hc]
      have hlt : ∀ z ∈ y :: ys, z.confidence < x.confidence := by
        intro z hz
        rcases List.mem_cons.mp hz with rfl | hz2
        · exact hc
        · exact lt_of_le_of_lt (hy z hz2) hc
      by_cases hx : x.confidence = q
      · have hnone : (y :: ys).filter (fun p => decide (p.confidence = q)) = [] := by
          rw [List.filter_eq_nil_iff]
          intro z hz
          simp only [decide_eq_true_eq]
          intro hzq
          have hzx := hlt z hz
          rw [hzq, hx] at hzx
          exact absurd hzx (lt_irrefl q)
        simp [List.filter_cons, hx, hnone]
      · simp [List.filter_cons, hx]
    · simp only [insertDesc, if_neg hc]
      by_cases hx : x.confidence = q <;> by_cases hyq : y.confidence = q <;>
        simp [List.filter_cons, hx, hyq, ih hys, List.cons_append]

/-- The stable descending sort keeps equal-confidence rows in their
original (insertion) order: filtering each confidence class commutes
with sorting. -/
theorem filter_sortByConfDesc (l : List PatternRow) (q : ℚ) :
    (sortByConfDesc l).filter (fun p => decide (p.confidence = q)) =
      l.filter (fun p => decide (p.confidence = q)) := by
  suffices h : ∀ (l acc : List PatternRow),
      acc.Pairwise (fun a b => b.confidence ≤ a.confidence) →
      (l.foldl (fun a x => insertDesc x a) acc).filter
          (fun p => decide (p.confidence = q)) =
        acc.filter (fun p => decide (p.confidence = q)) ++
          l.filter (fun p => decide (p.confidence = q)) by
    simpa using h l [] (by simp)
  intro l
  induction l with
  | nil => intro acc h; simp
  | cons x xs ih =>
    intro acc h
    simp only [List.foldl_cons]
    rw [ih (insertDesc x acc) (pairwise_insertDesc h),
      filter_insertDesc x q acc h]
    by_cases hx : x.confidence = q <;>
      simp [hx, List.filter_cons, List.append_assoc]

/-- Claim C7 counterexample: with one stored pattern but no in-memory
model data for the community, `get_recommendations` returns the empty
sequence — the code requires BOTH patterns and model data, while the
claim's otherwise-branch would produce one recommendation per
pattern. -/
theorem C7_counterexample :
    get_patterns onePatternState.db "s" ≠ [] ∧
    (lookupAssoc onePatternState.subreddit_models "s").getD [] = [] ∧
    get_recommendations onePatternState "s" = [] := by
  refine ⟨?_, rfl, ?_⟩
  · simp [get_patterns, onePatternState, baseState, store_pattern, emptyDB,
      sortByConfDesc, insertDesc]
  · simp [get_recommendations, onePatternState, baseState, lookupAssoc]

/-- Claim C7 (amended): `get_recommendations` returns the empty
sequence unless BOTH stored patterns and in-memory model data exist for
the community (not merely when neither exists); when both exist it
returns one recommendation per top-5 pattern by confidence.  In every
case the result has at most 5 elements with non-increasing confidence
values, ties between equal-confidence patterns keep insertion order,
and an unrecognized pattern type yields the generic placeholder
suggestion rather than an error. -/
theorem C7_recommendations (st : AgentState) (subreddit : String) (q : ℚ)
    (r : Recommendation) (l : List PatternRow) :
    (get_recommendations st subreddit).length ≤ 5 ∧
    ((get_recommendations st subreddit).map Recommendation.confidence).Pairwise
      (fun a b => b ≤ a) ∧
    (get_patterns st.db subreddit = [] ∨
        (lookupAssoc st.subreddit_models subreddit).getD [] = [] →
      get_recommendations st subreddit = []) ∧
    (get_patterns st.db subreddit ≠ [] →
      (lookupAssoc st.subreddit_models subreddit).getD [] ≠ [] →
      get_recommendations st subreddit =
        ((sortByConfDesc (get_patterns st.db subreddit)).take 5).map (fun p =>
          { rec_type := p.pattern_type
            confidence := p.confidence
            suggestion := generate_suggestion p
              ((lookupAssoc st.subreddit_models subreddit).getD []) })) ∧
    (r ∈ get_recommendations st subreddit → r.rec_type ≠ "successful_post" →
      r.suggestion = "No specific suggestion available") ∧
    (sortByConfDesc l).filter (fun p => decide (p.confidence = q)) =
      l.filter (fun p => decide (p.confidence = q)) := by
  refine ⟨?_, ?_, ?_, ?_, ?_, filter_sortByConfDesc l q⟩
  · simp only [get_recommendations]
    split
    · simp only [List.length_map, List.length_take]
      exact min_le_left 5 _
    · simp
  · simp only [get_recommendations]
    split
    · rw [List.map_map, List.pairwise_map]
      have hs := pairwise_sortByConfDesc (get_patterns st.db subreddit)
      exact (hs.sublist (List.take_sublist 5 _)).imp (fun h => h)
    · simp
  · intro h
    simp only [get_recommendations]
    rcases h with h | h
    · rw [if_neg]
      simp [h]
    · rw [if_neg]
      simp [h]
  · intro h1 h2
    simp only [get_recommendations]
    rw [if_pos]
    rw [Bool.and_eq_true, Bool.not_eq_true', Bool.not_eq_true',
      List.isEmpty_eq_false, List.isEmpty_eq_false]
    exact ⟨h1, h2⟩
  · intro hr htype
    simp only [get_recommendations] at hr
    rcases hif : (!(get_patterns st.db subreddit).isEmpty &&
        !((lookupAssoc st.subreddit_models subreddit).getD []).isEmpty) with _ | _
    · rw [hif] at hr
      simp at hr
    · rw [hif] at hr
      simp only [if_true] at hr
      rcases List.mem_map.mp hr with ⟨p, _, rfl⟩
      simp only [generate_suggestion]
      rw [if_neg]
      exact htype

/-- Witness for C7 (amended) at a concrete state with a stored pattern
but no model data: the empty-branch hypothesis is discharged and the
result is empty. -/
theorem C7_recommendations_witness :
    (get_patterns onePatternState.db "s" = [] ∨
      (lookupAssoc onePatternState.subreddit_models "s").getD [] = []) ∧
    get_recommendations onePatternState "s" = [] :=
  ⟨Or.inr rfl,
   (C7_recommendations onePatternState "s" 0
      { rec_type := "", confidence := 0, suggestion := "" } []).2.2.1 (Or.inr rfl)⟩

/-- Processing a fresh, fault-free submission appends exactly its row
to the submissions table. -/
theorem processOne_submissions (st : AgentState) (name : String) (now : ℚ)
    (sub : Submission) (h : is_submission_processed st.db sub.id = false) :
    (processOne st name now (sub, false)).1.db.submissions =
      st.db.submissions ++
        [mkSubmissionRow sub (analyze_submission sub)
          (calculate_utility st.utility_weights (submissionMetrics now sub)) now] := by
  simp only [processOne, h, Bool.false_eq_true, if_false,
    store_submission_ok st.db sub (analyze_submission sub) _ now h]
  rcases hlook : lookupAssoc st.subreddit_models name with _ | mdl <;>
    (split <;> simp [update_model, hlook, learn_from_submission, store_pattern])

/-- Claim C8 counterexample: `process_subreddit` does NOT skip stickied
submissions — a fresh stickied submission is scored (it appears in the
processed list) and persisted (a row is stored) and the state store is
updated. -/
theorem C8_counterexample :
    stickiedSub.stickied = true ∧
    (process_subreddit baseState "x" AccessResult.accessible
        [(stickiedSub, false)] 3600).2.1.map ProcessedEntry.id = ["st1"] ∧
    submissionRowCount (process_subreddit baseState "x" AccessResult.accessible
        [(stickiedSub, false)] 3600).1.db "st1" = 1 ∧
    (process_subreddit baseState "x" AccessResult.accessible
        [(stickiedSub, false)] 3600).1.subreddit_models ≠ [] := by
  have h2 := processOne_success baseState "x" 3600 stickiedSub rfl
  have h3 := processOne_submissions baseState "x" 3600 stickiedSub rfl
  refine ⟨rfl, ?_, ?_, ?_⟩
  · show ((processItems baseState "x" 3600
        [(stickiedSub, false)]).2.1.map ProcessedEntry.id) = _
    simp [processItems, h2.1]
    try simp [stickiedSub, plainSub]
  · show submissionRowCount (processItems baseState "x" 3600
        [(stickiedSub, false)]).1.db "st1" = 1
    simp only [processItems]
    unfold submissionRowCount
    rw [h3]
    simp [baseState, emptyDB, mkSubmissionRow, stickiedSub, plainSub]
  · show (processItems baseState "x" 3600 [(stickiedSub, false)]).1.subreddit_models ≠ []
    simp only [processItems]
    have h0 : is_submission_processed baseState.db stickiedSub.id = false := rfl
    have h4 : (processOne baseState "x" 3600 (stickiedSub, false)).1.subreddit_models ≠ [] := by
      simp only [processOne, h0, Bool.false_eq_true, if_false,
        store_submission_ok baseState.db stickiedSub (analyze_submission stickiedSub) _ 3600 h0]
      split <;> simp [update_model, baseState, lookupAssoc, setAssoc]
    simpa using h4

/-- Claim C8 (amended): stickied submissions are excluded only in the
market-insights pipeline — main.analyze_subreddit skips a stickied post
before any analysis (it is not counted and contributes no need) — while
the LearningAgent's `process_subreddit` ignores the stickied flag
entirely: its result on a submission is identical whatever the flag's
value. -/
theorem C8_stickied (st : AgentState) (name : String) (now : ℚ)
    (sub : Submission) (f b1 b2 : Bool) (p : MarketPost) (rest : List MarketPost) :
    (processOne st name now ({ sub with stickied := b1 }, f) =
      processOne st name now ({ sub with stickied := b2 }, f)) ∧
    (p.stickied = true → analyzePosts (p :: rest) = analyzePosts rest) := by
  constructor
  · cases sub
    rfl
  · intro h
    simp [analyzePosts, h]

/-- Witness for C8 (amended) at a concrete stickied post and a concrete
submission. -/
theorem C8_stickied_witness :
    stickiedPost.stickied = true ∧
    analyzePosts [stickiedPost] = analyzePosts [] ∧
    processOne baseState "x" 0 ({ plainSub with stickied := true }, false) =
      processOne baseState "x" 0 ({ plainSub with stickied := false }, false) :=
  ⟨rfl, (C8_stickied baseState "x" 0 plainSub false true false stickiedPost []).2 rfl,
   (C8_stickied baseState "x" 0 plainSub false true false stickiedPost []).1⟩

/-- `strFind` over an occurrence-free prefix shifts the index. -/
theorem strFind_append_of_not_mem (c : Char) (l₁ l₂ : List Char) (h : c ∉ l₁) :
    strFind c (l₁ ++ l₂) = (strFind c l₂).map (· + l₁.length) := by
  induction l₁ with
  | nil =>
    simp only [List.nil_append, List.length_nil]
    cases strFind c l₂ <;> simp
  | cons a rest ih =>
    have ha : a ≠ c := by
      intro hEq
      exact h (by simp [hEq])
    have h2 : c ∉ rest := fun hmem => h (List.mem_cons_of_mem a hmem)
    rw [List.cons_append]
    show (if a = c then some 0 else (strFind c (rest ++ l₂)).map (· + 1)) =
      (strFind c l₂).map (· + (a :: rest).length)
    rw [if_neg ha, ih h2]
    cases hf : strFind c l₂ with
    | none => simp
    | some i =>
      simp only [Option.map_some', Option.some.injEq, List.length_cons]
      omega

/-- The first opening brace of a wrapped object sits right after the
brace-free wrapper prefix. -/
theorem strFind_wrapped (pre mid post : List Char) (hpre : '{' ∉ pre) :
    strFind '{' (pre ++ ('{' :: mid ++ ['}']) ++ post) = some pre.length := by
  rw [List.append_assoc, strFind_append_of_not_mem _ _ _ hpre]
  simp [strFind]

/-- The last closing brace of a wrapped object sits right before the
brace-free wrapper suffix. -/
theorem strRfind_wrapped (pre mid post : List Char) (hpost : '}' ∉ post) :
    strRfind '}' (pre ++ ('{' :: mid ++ ['}']) ++ post) =
      some (pre.length + mid.length + 1) := by
  unfold strRfind
  have hrev : (pre ++ ('{' :: mid ++ ['}']) ++ post).reverse =
      post.reverse ++ ('}' :: (mid.reverse ++ '{' :: pre.reverse)) := by
    simp [List.reverse_append, List.reverse_cons]
  rw [hrev]
  have hpost' : '}' ∉ post.reverse := by simpa using hpost
  rw [strFind_append_of_not_mem _ _ _ hpost']
  show Option.map _ (Option.map _ (if ('}' : Char) = '}' then some 0 else _)) = _
  rw [if_pos rfl]
  simp only [Option.map_some', Option.some.injEq]
  simp only [List.length_append, List.length_reverse, List.length_cons,
    List.length_nil]
  omega

/-- When the direct parse fails, `safe_parse_json` parses the slice
from the first opening to the last closing brace. -/
theorem safe_parse_json_extract (s : List Char) (i j : ℕ) (o : JObj)
    (h1 : jsonLoads s = none) (hf : strFind '{' s = some i)
    (hr : strRfind '}' s = some j)
    (ho : jsonLoads ((s.drop i).take (j + 1 - i)) = some o) :
    safe_parse_json s = o := by
  unfold safe_parse_json
  rw [h1, hf, hr]
  simp only [ho]

/-- When both the direct parse and the brace-slice parse fail,
`safe_parse_json` returns the empty object. -/
theorem safe_parse_json_fail (s : List Char) (i j : ℕ)
    (h1 : jsonLoads s = none) (hf : strFind '{' s = some i)
    (hr : strRfind '}' s = some j)
    (ho : jsonLoads ((s.drop i).take (j + 1 - i)) = none) :
    safe_parse_json s = [] := by
  unfold safe_parse_json
  rw [h1, hf, hr]
  simp [ho]

/-- Claim C9: `safe_parse_json` never raises (it is a total function
into parsed objects): any well-formed response parses through; when the
response, and its brace-bounded slice, are both malformed, the result
is the empty object; and when the response wraps one JSON object in
brace-free extra text, the object is extracted (from the first opening
to the last closing brace) and its parse returned. -/
theorem C9_safe_parse :
    (∀ (s : List Char) (o : JObj), jsonLoads s = some o → safe_parse_json s = o) ∧
    (∀ s : List Char, jsonLoads s = none →
      (∀ i j : ℕ, strFind '{' s = some i → strRfind '}' s = some j →
        jsonLoads ((s.drop i).take (j + 1 - i)) = none) →
      safe_parse_json s = []) ∧
    (∀ (pre mid post : List Char) (o : JObj), '{' ∉ pre → '}' ∉ post →
      jsonLoads (pre ++ ('{' :: mid ++ ['}']) ++ post) = none →
      jsonLoads ('{' :: mid ++ ['}']) = some o →
      safe_parse_json (pre ++ ('{' :: mid ++ ['}']) ++ post) = o) := by
  refine ⟨?_, ?_, ?_⟩
  · intro s o h
    unfold safe_parse_json
    rw [h]
  · intro s h1 h2
    rcases hf : strFind '{' s with _ | i <;> rcases hr : strRfind '}' s with _ | j
    · unfold safe_parse_json
      rw [h1, hf, hr]
    · unfold safe_parse_json
      rw [h1, hf, hr]
    · unfold safe_parse_json
      rw [h1, hf, hr]
    · exact safe_parse_json_fail s i j h1 hf hr (h2 i j hf hr)
  · intro pre mid post o hpre hpost hfail hobj
    have hdrop : (pre ++ ('{' :: mid ++ ['}']) ++ post).drop pre.length =
        ('{' :: mid ++ ['}']) ++ post := by
      rw [List.append_assoc]
      exact List.drop_left pre _
    have hlen : pre.length + mid.length + 1 + 1 - pre.length =
        ('{' :: mid ++ ['}']).length := by
      simp only [List.length_cons, List.length_append, List.length_nil]
      omega
    have htake : (('{' :: mid ++ ['}']) ++ post).take
        (pre.length + mid.length + 1 + 1 - pre.length) = '{' :: mid ++ ['}'] := by
      rw [hlen]
      exact List.take_left _ _
    apply safe_parse_json_extract _ pre.length (pre.length + mid.length + 1) o hfail
      (strFind_wrapped pre mid post hpre) (strRfind_wrapped pre mid post hpost)
    rw [hdrop, htake]
    exact hobj

/-- Witness for C9 at a concrete wrapped response «x {"a":1} y». -/
theorem C9_safe_parse_witness :
    '{' ∉ wrapPre ∧ '}' ∉ wrapPost ∧
    jsonLoads (wrapPre ++ ('{' :: wrapMid ++ ['}']) ++ wrapPost) = none ∧
    jsonLoads ('{' :: wrapMid ++ ['}']) = some wrapObj ∧
    safe_parse_json (wrapPre ++ ('{' :: wrapMid ++ ['}']) ++ wrapPost) = wrapObj :=
  ⟨by decide, by decide, by decide, by decide,
   C9_safe_parse.2.2 wrapPre wrapMid wrapPost wrapObj
     (by decide) (by decide) (by decide) (by decide)⟩

/-- One loop step preserves «every stored engagement_score is 0». -/
theorem processOne_engagement_zero (st : AgentState) (name : String) (now : ℚ)
    (item : SubItem)
    (h : ∀ r ∈ st.db.submissions, r.engagement_score = 0) :
    ∀ r ∈ (processOne st name now item).1.db.submissions, r.engagement_score = 0 := by
  rcases item with ⟨sub, f⟩
  cases hp : is_submission_processed st.db sub.id with
  | true =>
    have hst : (processOne st name now (sub, f)).1 = st := by
      simp [processOne, hp]
    rw [hst]
    exact h
  | false =>
    cases f with
    | true =>
      have hst : (processOne st name now (sub, true)).1 = st := by
        simp [processOne, hp]
      rw [hst]
      exact h
    | false =>
      rw [processOne_submissions st name now sub hp]
      intro r hr
      rcases List.mem_append.mp hr with hold | hnew
      · exact h r hold
      · rw [List.mem_singleton.mp hnew]
        rfl

/-- The whole loop preserves «every stored engagement_score is 0». -/
theorem processItems_engagement_zero (name : String) (now : ℚ) :
    ∀ (items : List SubItem) (st : AgentState),
      (∀ r ∈ st.db.submissions, r.engagement_score = 0) →
      ∀ r ∈ (processItems st name now items).1.db.submissions,
        r.engagement_score = 0 := by
  intro items
  induction items with
  | nil =>
    intro st h
    simpa [processItems] using h
  | cons item rest ih =>
    intro st h
    simp only [processItems]
    exact ih _ (processOne_engagement_zero st name now item h)

/-- Claim C10: every submissions row the agent persists has
engagement_score 0 — `analyze_submission` produces exactly the keys
sentiment and topics, `store_submission` fills the engagement_score
column from analysis.get(«engagement_rate», 0.0) which is always the
0.0 default, and the whole `process_subreddit` pipeline keeps every
stored row's engagement_score at 0 (the separately computed engagement
metric only feeds the utility score and in-memory model). -/
theorem C10_engagement_zero (st : AgentState) (name : String)
    (access : AccessResult) (items : List SubItem) (now : ℚ)
    (h : ∀ r ∈ st.db.submissions, r.engagement_score = 0) :
    (∀ sub : Submission,
      (analyze_submission sub).map Prod.fst = ["sentiment", "topics"]) ∧
    (∀ sub : Submission, analysisEngagement (analyze_submission sub) = 0) ∧
    (∀ r ∈ (process_subreddit st name access items now).1.db.submissions,
      r.engagement_score = 0) := by
  refine ⟨fun sub => rfl, fun sub => rfl, ?_⟩
  cases access with
  | accessible => exact processItems_engagement_zero name now items st h
  | privateSub => exact h
  | redirect => exact h
  | forbidden => exact h
  | otherFailure msg => exact h

/-- Witness for C10 starting from the empty database. -/
theorem C10_engagement_zero_witness :
    (∀ r ∈ baseState.db.submissions, r.engagement_score = 0) ∧
    (∀ r ∈ (process_subreddit baseState "x" AccessResult.accessible
        [(plainSub, false)] 3600).1.db.submissions, r.engagement_score = 0) :=
  ⟨by simp [baseState, emptyDB],
   (C10_engagement_zero baseState "x" AccessResult.accessible [(plainSub, false)]
      3600 (by simp [baseState, emptyDB])).2.2⟩

end RedditAgent
